import Mathlib

/-!
Verification of the Upload-Assistant tracker adapters (src/trackers/MTEAM.py,
AUDIENCES.py, CHD.py, HHAN.py, HDSKY.py, U2.py) against their natural-language
specification.

The Python code is shallowly embedded: JSON values are an inductive type,
Python dictionary/truthiness/equality semantics are modelled explicitly, the
network is an explicit oracle argument, and the side effects of each flow
(network requests issued, files written, status-record mutations) are returned
as explicit data so that frame conditions can be stated and proved.
-/

namespace UploadAssistant

/-! ## JSON values as produced by Python's json parsing (httpx response.json()).

Python's json parser yields an `int` for an integral JSON number literal and
a `float` for one with a fraction or exponent; the two cases are kept apart
as `num` and `flt`.  A parsed finite binary64 float is an exact rational
value, so `flt` carries that value as a `Rat` (the parser's rounding to
binary64 happens upstream of the values modelled here, and the JSON grammar
has no NaN/Infinity).  Python's `None` is identified with JSON `null`:
`dict.get(k)` on a missing key returns `None`, exactly as a stored JSON
`null` does. -/

inductive Json where
  | null : Json
  | bool : Bool → Json
  | num : Int → Json
  | flt : Rat → Json
  | str : String → Json
  | arr : List Json → Json
  | obj : List (String × Json) → Json

/-- Raw association-list lookup (Python dicts from JSON have unique keys). -/
def dictLookup (fields : List (String × Json)) (key : String) : Option Json :=
  match fields with
  | [] => none
  | (k, v) :: rest => if k = key then some v else dictLookup rest key

/-- Python `d.get(key)`: `None` when the key is missing; `None` is `Json.null`. -/
def pyGet (fields : List (String × Json)) (key : String) : Json :=
  (dictLookup fields key).getD Json.null

/-- Python `d.get(key, dflt)`. A stored `null` is returned as-is (it is the
stored value), the default only applies to a missing key. -/
def pyGetD (fields : List (String × Json)) (key : String) (dflt : Json) : Json :=
  (dictLookup fields key).getD dflt

/-- Python truthiness of a parsed-JSON value: `None`, `False`, `0`, `""`,
`[]` and `{}` are falsy, everything else truthy. -/
def pyTruthy : Json → Bool
  | Json.null => false
  | Json.bool b => b
  | Json.num n => n != 0
  | Json.flt q => decide (q ≠ 0)
  | Json.str s => s != ""
  | Json.arr xs => !xs.isEmpty
  | Json.obj fs => !fs.isEmpty

/-- Python `a or b` on parsed-JSON values. -/
def pyOr (a b : Json) : Json :=
  if pyTruthy a then a else b

/-- Python `x is None` on a parsed-JSON value (`None` is `Json.null`). -/
def jsonIsNull : Json → Bool
  | Json.null => true
  | _ => false

/-- Python `x == s` for a string literal `s`: only a string value can
compare equal to a string. -/
def pyEqStr (x : Json) (s : String) : Bool :=
  match x with
  | Json.str t => t == s
  | _ => false

/-- Python `str(x)` for a parsed-JSON value.  `repr` is used for the elements
of lists and for dicts; quoting of nested strings is elided, and the digits
of a float repr are not reproduced (Python's `str` of a finite float always
contains a '.' or an 'e', so it is never `"0"` and never all digits — the
only facts about it this development uses; no claim depends on the exact
text of a float, list or dict repr, only on scalars). -/
def pyStr : Json → String
  | Json.null => "None"
  | Json.bool true => "True"
  | Json.bool false => "False"
  | Json.num n => toString n
  | Json.flt _ => "(0.0...)"
  | Json.str s => s
  | Json.arr _ => "[...]"
  | Json.obj _ => "\x7b...\x7d"

/-- Python `x == 0` for a parsed-JSON value `x`.  Note `False == 0`,
`0 == 0` and `0.0 == 0` are all `True` in Python (numeric cross-type
equality is by exact value); strings, `None`, lists and dicts never
compare equal to an int. -/
def pyEqIntZero : Json → Bool
  | Json.num n => n == 0
  | Json.flt q => decide (q = 0)
  | Json.bool b => b == false
  | _ => false

/-- Python `x == "0"`. Only the string `"0"` compares equal to `"0"`. -/
def pyEqStrZero : Json → Bool
  | Json.str s => s == "0"
  | _ => false

/-- Python `str(x) == "0"`.  `str` of `None`/`True`/`False` is never `"0"`,
`str` of a finite float always contains '.' or 'e' (e.g. `str(0.0)` is
`"0.0"`), the repr of a list/dict starts with a bracket, a string is itself,
and the decimal representation of an int `n` is compared against `"0"`
literally. -/
def pyStrEqZero : Json → Bool
  | Json.num n => toString n == "0"
  | Json.str s => s == "0"
  | _ => false

/-! ## Python substring and case helpers -/

/-- Auxiliary scan for substring containment over character lists. -/
def strInAux (needle : List Char) : List Char → Bool
  | [] => needle.isEmpty
  | c :: rest => needle.isPrefixOf (c :: rest) || strInAux needle rest

/-- Python `needle in hay` on strings. -/
def strIn (needle hay : String) : Bool :=
  strInAux needle.data hay.data

/-- Python `s.lower()` (the markers compared in this code are ASCII, where
`Char.toLower` agrees with Python). -/
def pyLower (s : String) : String :=
  String.mk (s.data.map Char.toLower)

/-- Python `s.upper()`. -/
def pyUpper (s : String) : String :=
  String.mk (s.data.map Char.toUpper)

/-- Python `s.strip()`: drop leading and trailing whitespace. -/
def pyStrip (s : String) : String :=
  String.mk (((s.data.dropWhile Char.isWhitespace).reverse.dropWhile Char.isWhitespace).reverse)

/-- Python `s.startswith(p)`. -/
def pyStartsWith (s p : String) : Bool :=
  p.data.isPrefixOf s.data

/-- Python `s[:n]`. -/
def pyTake (s : String) (n : Nat) : String :=
  String.mk (s.data.take n)

/-- Fuel-driven scanner for `pyReplace`: replaces each non-overlapping
occurrence of `pat`, scanning left to right (the fuel is an upper bound on
the number of steps; it never runs out when it starts at `length + 1`). -/
def pyReplaceAux (pat rep : List Char) : Nat → List Char → List Char
  | 0, l => l
  | _ + 1, [] => []
  | fuel + 1, c :: rest =>
    if pat.isPrefixOf (c :: rest) then
      rep ++ pyReplaceAux pat rep fuel ((c :: rest).drop pat.length)
    else c :: pyReplaceAux pat rep fuel rest

/-- Python `s.replace(pat, rep)` for a non-empty `pat`: all non-overlapping
occurrences, left to right. -/
def pyReplace (s pat rep : String) : String :=
  String.mk (pyReplaceAux pat.data rep.data (s.data.length + 1) s.data)

/-! ## MTEAM response-envelope parser and request wrapper
(src/trackers/MTEAM.py, `MTEAM._parse_api_response` and `MTEAM._request`). -/

/-- MTEAM._parse_api_response: parses the envelope dict
`\x7b"code": 0 or "0", "message": "", "data": \x7b\x7d\x7d`, returning
`(success, data, message)` with
`success = (code == 0 or code == "0" or str(code) == "0")`. -/
def parse_api_response (response_json : List (String × Json)) : Bool × Json × Json :=
  let code := pyGet response_json "code"
  let success := pyEqIntZero code || pyEqStrZero code || pyStrEqZero code
  let data := pyGetD response_json "data" (Json.obj [])
  let message := pyGetD response_json "message" (Json.str "")
  (success, data, message)

/-- MTEAMRequestError(message, status): `status = 0` means a transport
failure, otherwise it is the HTTP status code.  The message is kept as the
JSON value the code assigns (the non-200 branch can assign a non-string
value taken from the response body). -/
structure MTEAMRequestError where
  message : Json
  status : Nat

/-- The HTTP response as seen by `MTEAM._request` after the POST returned:
status code, whether the content-type header starts with `application/json`,
the parsed JSON body (`none` when `response.json()` raises), and the raw
body text. -/
structure HttpResponse where
  status : Nat
  contentTypeJson : Bool
  body : Option Json
  text : String

/-- Outcome of the underlying `httpx` POST: a timeout, another transport
error (`httpx.RequestError`, carrying `str(e)`), or a response. -/
inductive TransportResult where
  | timeout : String → TransportResult
  | reqError : String → TransportResult
  | ok : HttpResponse → TransportResult

/-- The error message computed by `MTEAM._request` for a non-200 response:
`msg = response.text[:200] if response.text else f"HTTP \x7bstatus\x7d"`,
refined from a JSON dict body (`body.get('message') or body.get('error') or
msg`), and prefixed with an authentication hint for 401/403. -/
def non200Base (r : HttpResponse) : Json :=
  Json.str (if r.text = "" then "HTTP " ++ toString r.status else pyTake r.text 200)

/-- The refinement of the non-200 message from a JSON dict body:
`msg = body.get('message') or body.get('error') or msg`. -/
def non200Refined (r : HttpResponse) : Json :=
  if r.contentTypeJson then
    match r.body with
    | some (Json.obj fields) =>
      pyOr (pyGet fields "message") (pyOr (pyGet fields "error") (non200Base r))
    | _ => non200Base r
  else non200Base r

def non200Msg (r : HttpResponse) : Json :=
  if r.status = 403 || r.status = 401 then
    Json.str ("Authentication failed (403 Forbidden or 401 Unauthorized). Please check your API key."
      ++ (if pyTruthy (non200Refined r) then " " ++ pyStr (non200Refined r) else ""))
  else non200Refined r

/-- MTEAM._request: collapses transport errors, non-200 statuses, JSON
decoding failures and envelope-level failure into `MTEAMRequestError`;
on success it returns the envelope's `data` field. -/
def mteamRequest (tr : TransportResult) : Except MTEAMRequestError Json :=
  match tr with
  | TransportResult.timeout e =>
    Except.error ⟨Json.str ("Request timed out: " ++ e), 0⟩
  | TransportResult.reqError e =>
    Except.error ⟨Json.str e, 0⟩
  | TransportResult.ok r =>
    if r.status ≠ 200 then
      Except.error ⟨non200Msg r, r.status⟩
    else
      match r.body with
      | none => Except.error ⟨Json.str "Invalid JSON", 200⟩
      | some (Json.obj fields) =>
        let parsed := parse_api_response fields
        if parsed.1 then Except.ok parsed.2.1
        else Except.error ⟨pyOr parsed.2.2 (Json.str "API returned error"), 200⟩
      | some _ => Except.error ⟨Json.str "Response is not dict", 200⟩

/-! ## MTEAM duplicate-search normalization (src/trackers/MTEAM.py) -/

/-- standardList.json: 1=1080p, 2=1080i, 3=720p, 5=SD, 6=4K, 7=8K;
`_standard_id_to_res` looks the stripped str of the id up and returns ""
when unknown. -/
def standardIdToRes (standard_id : Json) : String :=
  let k := pyStrip (pyStr standard_id)
  if k = "1" then "1080p"
  else if k = "2" then "1080i"
  else if k = "3" then "720p"
  else if k = "5" then "SD"
  else if k = "6" then "2160p"
  else if k = "7" then "8K"
  else ""

/-- sourceList.json: 8=Web-DL, 1=Bluray, 4=Remux, 5=HDTV/TV, 3=DVD, 6=Other;
`_source_id_to_type` looks the stripped str of the id up and returns ""
when unknown. -/
def sourceIdToType (source_id : Json) : String :=
  let k := pyStrip (pyStr source_id)
  if k = "8" then "WEBDL"
  else if k = "1" then "BluRay"
  else if k = "4" then "REMUX"
  else if k = "5" then "HDTV"
  else if k = "3" then "DVD"
  else if k = "6" then "Other"
  else ""

/-- `_infer_type_from_name`: infer the source type from the lower-cased
release name when the API row has no `source` field. -/
def inferTypeFromName (name : String) : String :=
  let n := pyLower name
  if strIn "web-dl" n || strIn "webdl" n || strIn "web dl" n || strIn "amzn" n
      || strIn "nf " n || strIn "atvp" n then "WEBDL"
  else if strIn "blu-ray" n || strIn "bluray" n || strIn "uhd blu" n || strIn "bdrip" n then "BluRay"
  else if strIn "hdtv" n || strIn "pdtv" n then "HDTV"
  else if strIn "remux" n then "REMUX"
  else ""

/-- `_infer_res_from_name`: infer the resolution from the lower-cased release
name when the API row has no `standard` field. -/
def inferResFromName (name : String) : String :=
  let n := pyLower name
  if strIn "2160p" n || strIn "4k" n || strIn "uhd" n then "2160p"
  else if strIn "1080p" n || strIn "1080i" n then "1080p"
  else if strIn "720p" n || strIn "720i" n then "720p"
  else if strIn "480p" n || strIn "576p" n then "SD"
  else ""

/-- Python `str(x).isdigit()` for a parsed-JSON value (ASCII digits; the
decimal repr of a negative int contains '-', `str` of a float contains '.'
or 'e', `str` of bools/None/lists/dicts contains non-digits). -/
def pyStrIsDigit : Json → Bool
  | Json.num n => decide (0 ≤ n)
  | Json.str s => s ≠ "" && s.data.all Char.isDigit
  | _ => false

/-- Python `int(x)` restricted to the values `search_existing` feeds it
(`numfiles` has already passed the `str(x).isdigit()` guard). -/
def pyIntOf : Json → Int
  | Json.num n => n
  | Json.flt q => q.num.tdiv q.den
  | Json.str s => (s.toNat?).getD 0
  | Json.bool b => if b then 1 else 0
  | _ => 0

/-- The normalized duplicate-match record built by `MTEAM.search_existing`.
Every field of the Python dict literal is structurally present. -/
structure DupeEntry where
  name : String
  size : Json
  files : List Json
  file_count : Int
  trumpable : Bool
  link : Option String
  download : Option Json
  flags : List Json
  id : Json
  type : String
  res : String
  internal : Int
  bd_info : Option Json
  description : Json

/-- The per-row body of the `for torrent in torrents` loop of
`MTEAM.search_existing`: skips non-dict rows and rows without a truthy
name, otherwise builds the normalized record, inferring `res`/`type` from
the name exactly when the API row lacks `standard`/`source`. -/
def buildDupeEntry (torrent : Json) : Option DupeEntry :=
  match torrent with
  | Json.obj fields =>
    let nameJ := pyOr (pyGet fields "name") (pyGetD fields "title" (Json.str ""))
    if pyTruthy nameJ then
      let name := pyStr nameJ
      let tid := pyGet fields "id"
      let numfiles := pyGet fields "numfiles"
      let file_count : Int :=
        if !jsonIsNull numfiles && pyStrIsDigit numfiles then pyIntOf numfiles else 0
      let standard_id := pyGet fields "standard"
      let source_id := pyGet fields "source"
      let res := if !jsonIsNull standard_id then standardIdToRes standard_id
        else inferResFromName name
      let type_str := if !jsonIsNull source_id then sourceIdToType source_id
        else inferTypeFromName name
      let link := if pyTruthy tid then some ("https://kp.m-team.cc/details/" ++ pyStr tid)
        else none
      let flags := match pyGet fields "labelsNew" with
        | Json.arr xs => xs
        | _ => []
      some
        { name := name
          size := pyGet fields "size"
          files := []
          file_count := file_count
          trumpable := false
          link := link
          download := none
          flags := flags
          id := tid
          type := type_str
          res := res
          internal := 0
          bd_info := none
          description := pyGet fields "smallDescr" }
    else none
  | _ => none

/-- `int(meta.get('imdb_id', 0) or 0)`: a missing key defaults to 0, any
falsy value (None, "", 0, False, [], \x7b\x7d) is replaced by 0, and the
result is converted with `int(...)` (`none` marks the values on which the
Python `int()` call would raise, outside the flow modelled here). -/
def metaImdbId (v : Option Json) : Option Int :=
  let x := v.getD (Json.num 0)
  let x := if pyTruthy x then x else Json.num 0
  match x with
  | Json.num n => some n
  | Json.flt q => some (q.num.tdiv q.den)
  | Json.bool b => some (if b then 1 else 0)
  | Json.str s => (s.toInt?).map id
  | _ => none

/-- `MTEAM.search_existing`, with the network as an explicit oracle.
Returns the duplicate list together with the list of request URLs actually
issued.  When `imdb_id == 0` the function returns `[]` before any request;
otherwise it POSTs the search and normalizes each returned row. -/
def mteamSearchExisting (imdbId : Int)
    (searchOutcome : Except MTEAMRequestError Json) :
    List DupeEntry × List String :=
  if imdbId == 0 then ([], [])
  else
    let url := "https://api.m-team.cc/api/torrent/search"
    match searchOutcome with
    | Except.error _ => ([], [url])
    | Except.ok data =>
      let torrents : List Json :=
        match data with
        | Json.arr xs => xs
        | Json.obj fields =>
          match pyOr (pyGetD fields "data" (Json.arr [])) (pyGetD fields "torrents" (Json.arr [])) with
          | Json.arr xs => xs
          | _ => []
        | _ => []
      (torrents.filterMap buildDupeEntry, [url])

/-! ## Cookie-based adapters: duplicate search (AUDIENCES.py, CHD.py,
HHAN.py, HDSKY.py, U2.py share the same `search_existing` shape) -/

/-- Result of a cookie-based `search_existing`: the Python function returns
`False` when the cookie file is missing, otherwise a list of release names. -/
inductive CookieSearchResult where
  | missingCookie : CookieSearchResult
  | dupes : List String → CookieSearchResult
deriving Repr, DecidableEq

/-- Outcome of the search GET for a cookie-based adapter: a transport
failure, or an HTTP response whose torrent-table rows carry the given
release titles (the HTML extraction through BeautifulSoup is an external
collaborator; the titles it yields are taken as input). -/
inductive CookiePageOutcome where
  | timeout : CookiePageOutcome
  | reqError : String → CookiePageOutcome
  | http : Nat → List String → CookiePageOutcome

/-- The shared cookie-based `search_existing` flow (shown here for
AUDIENCES; CHD/HHAN/HDSKY/U2 differ only in host name).  Note that the
search GET is issued regardless of whether `imdb_id` is zero: a zero or
missing id merely makes the `search=` parameter empty.  Returns the result
together with the request URLs issued. -/
def cookieSearchUrl (host imdb sourceId : String) : String :=
  "https://" ++ host ++ "/torrents.php?search=" ++ imdb
    ++ "&incldead=0&search_mode=0&source" ++ sourceId ++ "=1"

def cookieSearchExisting (host : String) (cookieExists : Bool) (imdbId : Int)
    (imdbDigits : String) (sourceId : String) (page : CookiePageOutcome) :
    CookieSearchResult × List String :=
  if !cookieExists then (CookieSearchResult.missingCookie, [])
  else
    let imdb := if imdbId != 0 then "tt" ++ imdbDigits else ""
    let url := cookieSearchUrl host imdb sourceId
    match page with
    | CookiePageOutcome.http 200 titles =>
      (CookieSearchResult.dupes (titles.filter (fun t => t ≠ "")), [url])
    | CookiePageOutcome.http _ _ => (CookieSearchResult.dupes [], [url])
    | _ => (CookieSearchResult.dupes [], [url])

/-! ## Field-mapping pure functions -/

/-- `MTEAM.get_standard_id` (standardList.json: 1=1080p, 2=1080i, 3=720p,
5=SD, 6=4K, 7=8K): ordered substring checks over the lower-cased
`meta['resolution']`; unmatched input yields `none`. -/
def get_standard_id (resolution : String) : Option Int :=
  let r := pyLower resolution
  if strIn "8k" r || strIn "7680" r then some 7
  else if strIn "4k" r || strIn "2160p" r || strIn "2160i" r then some 6
  else if strIn "1080p" r then some 1
  else if strIn "1080i" r then some 2
  else if strIn "720p" r || strIn "720i" r then some 3
  else if strIn "480p" r || strIn "480i" r || strIn "576p" r || strIn "576i" r then some 5
  else none

/-- `AUDIENCES.get_standard_sel` (10=8K, 5=4K, 1=1080p, 2=1080i, 3=720p,
4=SD, 11=None): same cascade over the lower-cased `meta['resolution']`,
returning the site's string ids, with "11" for unmatched input. -/
def get_standard_sel (resolution : String) : String :=
  let r := pyLower resolution
  if strIn "8k" r || strIn "7680" r then "10"
  else if strIn "4k" r || strIn "2160p" r || strIn "2160i" r then "5"
  else if strIn "1080p" r then "1"
  else if strIn "1080i" r then "2"
  else if strIn "720p" r || strIn "720i" r then "3"
  else if strIn "480p" r || strIn "480i" r || strIn "576p" r || strIn "576i" r then "4"
  else "11"

/-- A mediainfo track as used by the codec mappings: a dict of fields. -/
def trackField (track : List (String × Json)) (key : String) : String :=
  pyUpper (pyStr (pyGetD track key (Json.str "")))

/-- `MTEAM.get_audio_codec_id`, structured branch: the cascade applied to
the first audio track's upper-cased `Format` / `Format_Profile`
(audioCodecList.json ids).  `none` when no branch matches; the caller falls
back to the raw-text parser when there is no audio track at all. -/
def audioCodecIdOfTrack (codec format_profile : String) : Option Int :=
  if strIn "E-AC3" codec && (strIn "ATMOS" format_profile || strIn "ATMOS" codec) then some 13
  else if strIn "E-AC3" codec || strIn "DDP" codec then some 12
  else if strIn "ATMOS" format_profile || strIn "TRUEHD ATMOS" codec then some 10
  else if strIn "TRUEHD" codec then some 9
  else if strIn "DTS-HD" codec || strIn "DTSHD" codec || strIn "DTS-HD MA" codec then some 11
  else if strIn "DTS:X" format_profile || strIn "DTSX" format_profile then some 3
  else if strIn "DTS" codec then some 3
  else if strIn "LPCM" codec || strIn "PCM" codec then some 14
  else if strIn "WAV" codec then some 15
  else if strIn "FLAC" codec then some 1
  else if strIn "APE" codec then some 2
  else if strIn "MP2" codec || strIn "MP3" codec then some 4
  else if strIn "OGG" codec || strIn "VORBIS" codec then some 5
  else if strIn "AC3" codec || strIn "DD" codec || strIn "DOLBY DIGITAL" codec then some 8
  else if strIn "AAC" codec then some 6
  else none

/-- `MTEAM.get_audio_codec_id` over the mediainfo track list: selects the
audio tracks and applies the cascade to the first one; `none` here stands
for the fall-through to the raw-text parser (no audio track). -/
def get_audio_codec_id (tracks : List (List (String × Json))) : Option (Option Int) :=
  match tracks.filter (fun t => pyEqStr (pyGet t "@type") "Audio") with
  | [] => none
  | t :: _ => some (audioCodecIdOfTrack (trackField t "Format") (trackField t "Format_Profile"))

/-- The audio half of `_parse_codec_ids_from_mediainfo_text`: the ordered
cascade over the upper-cased raw BDInfo/MediaInfo text. -/
def parseAudioIdFromText (t : String) : Option Int :=
  if strIn "E-AC3" t && (strIn "ATMOS" t || strIn "ATOMS" t) then some 13
  else if strIn "E-AC3" t || strIn "DDP" t || strIn "DOLBY DIGITAL PLUS" t then some 12
  else if strIn "TRUEHD" t && strIn "ATMOS" t then some 10
  else if strIn "TRUEHD" t || strIn "TRUE HD" t then some 9
  else if strIn "DTS-HD" t || strIn "DTSHD" t || strIn "DTS-HD MA" t then some 11
  else if strIn "DTS:X" t || strIn "DTSX" t then some 3
  else if strIn "DTS" t then some 3
  else if strIn "LPCM" t || strIn "PCM" t then some 14
  else if strIn "FLAC" t then some 1
  else if strIn "AC3" t || strIn "DOLBY DIGITAL" t || strIn "DD " t then some 8
  else if strIn "AAC" t then some 6
  else if strIn "MP3" t || strIn "MP2" t then some 4
  else if strIn "OGG" t || strIn "VORBIS" t then some 5
  else none

/-- The video half of `_parse_codec_ids_from_mediainfo_text`. -/
def parseVideoIdFromText (t : String) : Option Int :=
  if strIn "HEVC" t || strIn "H.265" t || strIn "X265" t || strIn "H265" t then some 16
  else if strIn "AVC" t || strIn "H.264" t || strIn "X264" t || strIn "H264" t
      || strIn "MPEG-4 AVC" t || strIn "MPEG4 AVC" t then some 1
  else if strIn "VC-1" t || strIn "VC1" t then some 2
  else if strIn "MPEG-2" t || strIn "MPEG2" t then some 4
  else if strIn "AV1" t then some 19
  else if strIn "VP9" t || strIn "VP8" t then some 21
  else if strIn "XVID" t then some 3
  else none

/-- `_parse_codec_ids_from_mediainfo_text`: empty text maps to
`(none, none)`, otherwise both cascades run on the upper-cased text. -/
def parse_codec_ids_from_mediainfo_text (text : String) : Option Int × Option Int :=
  if text = "" then (none, none)
  else
    let t := pyUpper text
    (parseVideoIdFromText t, parseAudioIdFromText t)

/-! ## Credential validation -/

/-- `MTEAM.validate_credentials`: an empty API key aborts before any
request; otherwise one profile request decides the result.  Returns the
outcome together with the request URLs issued. -/
def mteamValidateCredentials (apiKey : String)
    (profileOutcome : Except MTEAMRequestError Json) : Bool × List String :=
  if apiKey = "" then (false, [])
  else
    let url := "https://api.m-team.cc/api/member/profile"
    match profileOutcome with
    | Except.ok _ => (true, [url])
    | Except.error _ => (false, [url])

/-- `AUDIENCES.validate_cookies`: a missing cookie file aborts before any
request; otherwise one GET of the landing page decides the result by
searching for the logout marker. -/
def audiencesValidateCookies (cookieExists : Bool) (pageText : String) :
    Bool × List String :=
  if cookieExists then
    (strIn "<a href=\"#\" data-url=\"logout.php\" id=\"logout-confirm\">" pageText,
     ["https://audiences.me"])
  else (false, [])

/-- `CHD.validate_cookies`: same shape as AUDIENCES, with a second
`'logout'` marker accepted. -/
def chdValidateCookies (cookieExists : Bool) (pageText : String) :
    Bool × List String :=
  if cookieExists then
    (strIn "<a href=\"#\" data-url=\"logout.php\" id=\"logout-confirm\">" pageText
       || strIn "logout" pageText,
     ["https://ptchdbits.co"])
  else (false, [])

/-! ## AUDIENCES upload-response interpretation -/

/-- `urlsplit`-style query extraction as used by
`urlparse(str(up.url)).query`: the fragment is cut at the first '#', the
query is everything after the first '?' of what remains. -/
def pyUrlQueryAux (q : List Char) : List Char :=
  match q with
  | [] => []
  | c :: rest => if c = '?' then rest.takeWhile (fun d => d ≠ '#') else pyUrlQueryAux rest

/-- Python `urlparse(url).query`. -/
def pyUrlQuery (url : String) : String :=
  String.mk (pyUrlQueryAux (url.data.takeWhile (fun d => d ≠ '#')))

/-- Attempt to match the regex `(id=)(\d+)` at the head of a character
list: requires the literal `id=` followed by at least one digit and
captures the maximal digit run. -/
def matchIdAt (l : List Char) : Option String :=
  match l with
  | 'i' :: 'd' :: '=' :: rest =>
    let digits := rest.takeWhile Char.isDigit
    if digits.isEmpty then none else some (String.mk digits)
  | _ => none

/-- `re.search(r"(id=)(\d+)", s).group(2)`: the leftmost match wins. -/
def searchIdNum : List Char → Option String
  | [] => none
  | c :: rest =>
    match matchIdAt (c :: rest) with
    | some digits => some digits
    | none => searchIdNum rest

/-- Outcome of interpreting the post-submission response in
`AUDIENCES.upload`: success carries the extracted torrent id and the
status message recorded in the tracker status record; both other shapes
raise `UploadException` with the given message. -/
inductive AudUploadOutcome where
  | success : String → String → AudUploadOutcome
  | uploadException : String → AudUploadOutcome
deriving Repr, DecidableEq

/-- The details-page URL shape tested by `AUDIENCES.upload`. -/
def audiencesDetailsShape : String := "https://audiences.me/details.php?id="

/-- The response interpretation of `AUDIENCES.upload`: a URL starting with
the details-page shape and containing `id=` followed by digits in its query
is a success (status message = URL with '&uploaded=1' stripped); a
shape-matching URL without a numeric id raises; any other URL raises the
generic upload failure carrying the URL and HTTP status. -/
def audiencesHandleUploadResponse (respUrl : String) (status : Nat) : AudUploadOutcome :=
  if pyStartsWith respUrl audiencesDetailsShape then
    match searchIdNum (pyUrlQuery respUrl).data with
    | none =>
      AudUploadOutcome.uploadException
        "Upload succeeded but torrent id was not present in the redirect URL."
    | some tid =>
      AudUploadOutcome.success tid (pyReplace respUrl "&uploaded=1" "")
  else
    AudUploadOutcome.uploadException
      ("Upload to AUDIENCES Failed: result URL " ++ respUrl ++ " (" ++ toString status
        ++ ") was not expected")

/-! ## Upload pipelines with explicit side effects -/

/-- The fragment of the temp-directory file system relevant to the upload
flows: the per-tracker description cache file. -/
structure FsState where
  descExists : Bool
  descContent : String
deriving Repr, DecidableEq

/-- The `if not os.path.exists(desc_file): await self.edit_desc(meta)` step
shared by `MTEAM.upload` and `AUDIENCES.upload`: writes the generated
description only when the cache file is absent.  The generated content is a
parameter (the body of `edit_desc` assembles it from external inputs);
returns the new state and whether `edit_desc` ran. -/
def ensureDescFile (fs : FsState) (generated : String) : FsState × Bool :=
  if fs.descExists then (fs, false)
  else ({ descExists := true, descContent := generated }, true)

/-- Observable side effects of an upload flow, in program order. -/
inductive UploadEffect where
  | createTorrent : UploadEffect
  | writeDescFile : UploadEffect
  | ptgenFetch : UploadEffect
  | trackerSubmit : String → UploadEffect
  | statusMessageSet : String → UploadEffect
  | torrentIdSet : String → UploadEffect
  | downloadTorrent : UploadEffect
deriving Repr, DecidableEq

/-- `MTEAM.upload`, abstracted to its effect skeleton: torrent creation,
conditional description generation (whose internal `common.ptgen` call
fetches PTGen data when `imdb_id != 0`), the unconditional PTGen re-fetch
when `meta['ptgen']` is still unset at the check on line 790, and then
either the debug short-circuit or the real submission through `_request`.
`ptgenCachedAtCheck` is the truthiness of `meta.get('ptgen')` at that
check; `submitOutcome` is the oracle for the createOredit POST. -/
def mteamUpload (debug : Bool) (fs : FsState) (generatedDesc : String)
    (ptgenCachedAtCheck : Bool) (imdbId : Int)
    (submitOutcome : Except MTEAMRequestError Json) :
    Bool × FsState × List UploadEffect :=
  let e1 : List UploadEffect := [UploadEffect.createTorrent]
  let step := ensureDescFile fs generatedDesc
  let fs2 := step.1
  let e2 := e1 ++ (if step.2 then
      (if imdbId ≠ 0 then [UploadEffect.ptgenFetch] else []) ++ [UploadEffect.writeDescFile]
    else [])
  let e3 := e2 ++ (if !ptgenCachedAtCheck && imdbId ≠ 0 then [UploadEffect.ptgenFetch] else [])
  if debug then
    (true, fs2, e3 ++ [UploadEffect.statusMessageSet "Debug mode enabled, not uploading."])
  else
    let url := "https://api.m-team.cc/api/torrent/createOredit"
    match submitOutcome with
    | Except.error _ => (false, fs2, e3 ++ [UploadEffect.trackerSubmit url])
    | Except.ok dataObj =>
      let idEffects : List UploadEffect :=
        match dataObj with
        | Json.obj fields =>
          let tid := pyOr (pyGet fields "id") (pyGet fields "torrentId")
          if pyTruthy tid then
            [UploadEffect.torrentIdSet (pyStr tid), UploadEffect.downloadTorrent]
          else []
        | _ => []
      (true, fs2,
        e3 ++ [UploadEffect.trackerSubmit url,
               UploadEffect.statusMessageSet "Upload successful"] ++ idEffects)

/-- `AUDIENCES.upload`, abstracted the same way.  The debug branch sets the
debug status message and creates an extra `_DEBUG` torrent; the real branch
POSTs to takeupload.php only when the cookie file exists (otherwise the
function falls through to `return False`), and interprets the response with
`audiencesHandleUploadResponse`; an `UploadException` is modelled as
`Except.error`. -/
def audiencesUpload (debug cookieExists : Bool) (fs : FsState) (generatedDesc : String)
    (imdbId : Int) (respUrl : String) (respStatus : Nat) :
    Except String Bool × FsState × List UploadEffect :=
  let e1 : List UploadEffect := [UploadEffect.createTorrent]
  let step := ensureDescFile fs generatedDesc
  let fs2 := step.1
  let e2 := e1 ++ (if step.2 then
      (if imdbId ≠ 0 then [UploadEffect.ptgenFetch] else []) ++ [UploadEffect.writeDescFile]
    else [])
  if debug then
    (Except.ok true, fs2,
      e2 ++ [UploadEffect.statusMessageSet "Debug mode enabled, not uploading.",
             UploadEffect.createTorrent])
  else if cookieExists then
    let url := "https://audiences.me/takeupload.php"
    match audiencesHandleUploadResponse respUrl respStatus with
    | AudUploadOutcome.success tid msg =>
      (Except.ok true, fs2,
        e2 ++ [UploadEffect.trackerSubmit url, UploadEffect.downloadTorrent,
               UploadEffect.statusMessageSet msg, UploadEffect.torrentIdSet tid])
    | AudUploadOutcome.uploadException m =>
      (Except.error m, fs2, e2 ++ [UploadEffect.trackerSubmit url])
  else (Except.ok false, fs2, e2)

/-! ## Derived specification predicates and concrete fixtures -/

/-- The error/success contract of `MTEAM._request` as stated by the spec:
the result is the unwrapped data or a single `MTEAMRequestError` whose
message is truthy, whose status is 0 for transport failures and the HTTP
status for non-200 responses. -/
def requestContract (tr : TransportResult) : Prop :=
  match mteamRequest tr with
  | Except.ok _ => True
  | Except.error err =>
      pyTruthy err.message = true ∧
      (match tr with
       | TransportResult.timeout _ => err.status = 0
       | TransportResult.reqError _ => err.status = 0
       | TransportResult.ok r => r.status ≠ 200 → err.status = r.status)

/-- A concrete remote torrent row lacking both `standard` and `source`. -/
def c4fields : List (String × Json) :=
  [("name", Json.str "Movie.2009.1080p.WEB-DL.x264"), ("id", Json.num 3)]

def c4entry : DupeEntry :=
  { name := "Movie.2009.1080p.WEB-DL.x264", size := Json.null, files := [], file_count := 0,
    trumpable := false, link := some "https://kp.m-team.cc/details/3", download := none,
    flags := [], id := Json.num 3, type := "WEBDL", res := "1080p", internal := 0,
    bd_info := none, description := Json.null }

/-- A concrete first audio track reporting both the E-AC3 marker and the
Atmos profile. -/
def c5track : List (String × Json) :=
  [("@type", Json.str "Audio"), ("Format", Json.str "E-AC3"), ("Format_Profile", Json.str "Atmos")]

/-! ## Decimal-representation facts needed to settle `str(code) == "0"` -/

theorem toDigitsCore_length_le (b : Nat) :
    ∀ (fuel n : Nat) (ds : List Char), ds.length ≤ (Nat.toDigitsCore b fuel n ds).length := by
  intro fuel
  induction fuel with
  | zero => intro n ds; simp [Nat.toDigitsCore]
  | succ k ih =>
    intro n ds
    simp only [Nat.toDigitsCore]
    split
    · simp
    · calc ds.length ≤ (Nat.digitChar (n % b) :: ds).length := by simp
        _ ≤ _ := ih _ _

theorem toDigitsCore_length_pos (b : Nat) (fuel n : Nat) (ds : List Char) :
    ds.length + 1 ≤ (Nat.toDigitsCore b (fuel + 1) n ds).length := by
  simp only [Nat.toDigitsCore]
  split
  · simp
  · calc ds.length + 1 = (Nat.digitChar (n % b) :: ds).length := by simp
      _ ≤ _ := toDigitsCore_length_le b fuel _ _

theorem digitChar_eq_zero (r : Nat) (h : r < 10) (he : Nat.digitChar r = '0') : r = 0 := by
  interval_cases r <;> simp_all [Nat.digitChar]

theorem nat_repr_eq_zero (m : Nat) (h : Nat.repr m = "0") : m = 0 := by
  unfold Nat.repr Nat.toDigits at h
  have hdata : Nat.toDigitsCore 10 (m + 1) m [] = ['0'] := by
    have := congrArg String.data h
    simpa [List.asString] using this
  simp only [Nat.toDigitsCore] at hdata
  by_cases hd : m / 10 = 0
  · rw [if_pos hd] at hdata
    have hc : Nat.digitChar (m % 10) = '0' := by
      simpa using congrArg (fun l => l.headD 'x') hdata
    have := digitChar_eq_zero (m % 10) (Nat.mod_lt _ (by norm_num)) hc
    omega
  · exfalso
    rw [if_neg hd] at hdata
    have hm : 10 ≤ m := by
      rcases Nat.lt_or_ge m 10 with hlt | hge
      · exact absurd (Nat.div_eq_of_lt hlt) hd
      · exact hge
    obtain ⟨k, hk⟩ : ∃ k, m = k + 1 := ⟨m - 1, by omega⟩
    rw [hk] at hdata
    have h2 := toDigitsCore_length_pos 10 k ((k + 1) / 10) [Nat.digitChar ((k + 1) % 10)]
    rw [hdata] at h2
    simp at h2

theorem int_toString_eq_zero (n : Int) (h : toString n = "0") : n = 0 := by
  cases n with
  | ofNat m =>
    have : Nat.repr m = "0" := by simpa [toString, Int.repr] using h
    simp [nat_repr_eq_zero m this]
  | negSucc m =>
    exfalso
    have : ("-" ++ Nat.repr (m + 1) : String) = "0" := by
      simpa [toString, Int.repr] using h
    have hlen := congrArg String.length this
    have h1 : 1 ≤ (Nat.repr (m + 1)).length := by
      unfold Nat.repr Nat.toDigits
      have := toDigitsCore_length_pos 10 (m + 1) (m + 1) []
      simpa [List.asString, String.length] using this
    rw [String.length_append] at hlen
    have e1 : ("-" : String).length = 1 := rfl
    have e2 : ("0" : String).length = 1 := rfl
    omega

/-! ## Auxiliary truthiness lemmas -/

theorem append_ne_empty_left (s t : String) (h : s.length ≠ 0) : s ++ t ≠ "" := by
  intro he
  have hl := congrArg String.length he
  rw [String.length_append] at hl
  have h0 : ("" : String).length = 0 := rfl
  omega

theorem pyOr_truthy (a b : Json) (h : pyTruthy b = true) : pyTruthy (pyOr a b) = true := by
  unfold pyOr
  split
  · assumption
  · exact h

theorem non200Base_truthy (r : HttpResponse) : pyTruthy (non200Base r) = true := by
  unfold non200Base
  simp only [pyTruthy]
  split
  · have : ("HTTP " ++ toString r.status) ≠ "" :=
      append_ne_empty_left "HTTP " _ (by decide)
    simpa using this
  · rename_i htext
    have : (pyTake r.text 200) ≠ "" := by
      intro he
      have hd : r.text.data.take 200 = [] := congrArg String.data he
      rcases List.take_eq_nil_iff.mp hd with h1 | h1
      · omega
      · exact htext (String.ext h1)
    simpa using this

theorem non200Refined_truthy (r : HttpResponse) : pyTruthy (non200Refined r) = true := by
  unfold non200Refined
  split
  · split
    · exact pyOr_truthy _ _ (pyOr_truthy _ _ (non200Base_truthy r))
    · exact non200Base_truthy r
  · exact non200Base_truthy r

theorem non200Msg_truthy (r : HttpResponse) : pyTruthy (non200Msg r) = true := by
  unfold non200Msg
  split
  · have : ("Authentication failed (403 Forbidden or 401 Unauthorized). Please check your API key."
        ++ (if pyTruthy (non200Refined r) then " " ++ pyStr (non200Refined r) else "")) ≠ "" :=
      append_ne_empty_left
        "Authentication failed (403 Forbidden or 401 Unauthorized). Please check your API key."
        _ (by decide)
    simpa [pyTruthy] using this
  · exact non200Refined_truthy r

/-! ## The claims -/

/-- Claim C1, counterexample: the claim says `_parse_api_response` reports
success only for the integer 0 or the string "0"; but Python's `code == 0`
is also `True` for the JSON boolean `false` (`False == 0` in Python) and for
the float `0.0` parsed from a fractional JSON zero (`0.0 == 0` in Python),
so envelopes with code `false` or code `0.0` are parsed as success although
neither value is the integer 0 or the string "0". -/
theorem C1_counterexample :
    (parse_api_response [("code", Json.bool false)]).1 = true ∧
    (parse_api_response [("code", Json.flt 0)]).1 = true ∧
    Json.bool false ≠ Json.num 0 ∧ Json.bool false ≠ Json.str "0" ∧
    Json.flt 0 ≠ Json.num 0 ∧ Json.flt 0 ≠ Json.str "0" :=
  ⟨rfl, by decide, fun h => Json.noConfusion h, fun h => Json.noConfusion h,
   fun h => Json.noConfusion h, fun h => Json.noConfusion h⟩

/-- Claim C1 (amended): for a JSON dict response under HTTP 200,
`_parse_api_response` reports success exactly when the top-level code
compares equal to 0 or "0" under Python equality - the integer 0, the
string "0", the boolean false, or a float of value zero - and reports
failure for every other value; on success `_request` returns the envelope's
data field, on failure it raises an `MTEAMRequestError`. -/
theorem C1_success_iff (rj : List (String × Json)) (r : HttpResponse)
    (hstatus : r.status = 200) (hbody : r.body = some (Json.obj rj)) :
    ((parse_api_response rj).1 = true ↔
      (pyGet rj "code" = Json.num 0 ∨ pyGet rj "code" = Json.str "0" ∨
        pyGet rj "code" = Json.bool false ∨ pyGet rj "code" = Json.flt 0))
    ∧ ((parse_api_response rj).1 = true →
        mteamRequest (TransportResult.ok r) = Except.ok (parse_api_response rj).2.1)
    ∧ ((parse_api_response rj).1 = false →
        ∃ e, mteamRequest (TransportResult.ok r) = Except.error e ∧ e.status = 200) := by
  refine ⟨?_, ?_, ?_⟩
  · unfold parse_api_response
    cases hc : pyGet rj "code" with
    | null => simp [pyEqIntZero, pyEqStrZero, pyStrEqZero]
    | bool b => cases b <;> simp [pyEqIntZero, pyEqStrZero, pyStrEqZero]
    | num n =>
      simp only [pyEqIntZero, pyEqStrZero, pyStrEqZero, Bool.or_eq_true, beq_iff_eq]
      constructor
      · rintro ((h0 | hfalse) | hstr)
        · exact Or.inl (by rw [h0])
        · exact absurd hfalse (by simp)
        · exact Or.inl (by rw [int_toString_eq_zero n hstr])
      · rintro (h | h | h | h)
        · injection h with h
          exact Or.inl (Or.inl h)
        · exact Json.noConfusion h
        · exact Json.noConfusion h
        · exact Json.noConfusion h
    | flt q =>
      simp only [pyEqIntZero, pyEqStrZero, pyStrEqZero, Bool.or_eq_true, decide_eq_true_eq]
      constructor
      · rintro ((h0 | hfalse) | hstr)
        · exact Or.inr (Or.inr (Or.inr (by rw [h0])))
        · exact absurd hfalse (by simp)
        · exact absurd hstr (by simp)
      · rintro (h | h | h | h)
        · exact Json.noConfusion h
        · exact Json.noConfusion h
        · exact Json.noConfusion h
        · injection h with h
          exact Or.inl (Or.inl h)
    | str s => simp [pyEqIntZero, pyEqStrZero, pyStrEqZero]
    | arr xs => simp [pyEqIntZero, pyEqStrZero, pyStrEqZero]
    | obj fs => simp [pyEqIntZero, pyEqStrZero, pyStrEqZero]
  · intro hsucc
    simp [mteamRequest, hstatus, hbody, hsucc]
  · intro hfail
    refine ⟨⟨pyOr (parse_api_response rj).2.2 (Json.str "API returned error"), 200⟩, ?_, rfl⟩
    simp [mteamRequest, hstatus, hbody, hfail]

/-- Witness for C1: a concrete 200 response whose code is the string "0"
unwraps to its data field. -/
theorem C1_success_iff_witness :
    mteamRequest (TransportResult.ok
        ⟨200, true, some (Json.obj [("code", Json.str "0"), ("data", Json.num 7)]), ""⟩)
      = Except.ok (Json.num 7) :=
  (C1_success_iff [("code", Json.str "0"), ("data", Json.num 7)]
    ⟨200, true, some (Json.obj [("code", Json.str "0"), ("data", Json.num 7)]), ""⟩
    rfl rfl).2.1 rfl

/-- Claim C2: every call of `MTEAM._request` either returns the unwrapped
data payload or raises a single `MTEAMRequestError` (never a raw transport
exception); the error status is 0 for transport-level failures (timeout or
connection error) and equals the HTTP status for non-200 responses, and the
error carries a (truthy) diagnostic message in every case.  The hypothesis
states that the transport layer reports connection errors with a non-empty
`str(e)`. -/
theorem C2_request_contract (tr : TransportResult)
    (hreq : ∀ e, tr = TransportResult.reqError e → e ≠ "") :
    requestContract tr := by
  unfold requestContract
  cases tr with
  | timeout e =>
    simp only [mteamRequest]
    refine ⟨?_, by simp⟩
    have : ("Request timed out: " ++ e) ≠ "" :=
      append_ne_empty_left "Request timed out: " _ (by decide)
    simpa [pyTruthy] using this
  | reqError e =>
    simp only [mteamRequest]
    refine ⟨?_, by simp⟩
    have := hreq e rfl
    simpa [pyTruthy] using this
  | ok r =>
    simp only [mteamRequest]
    by_cases hs : r.status = 200
    · simp only [hs, ne_eq, not_true_eq_false, if_false]
      cases hb : r.body with
      | none =>
        exact ⟨by simp [pyTruthy], fun h => h.elim⟩
      | some j =>
        cases j with
        | obj fields =>
          by_cases hp : (parse_api_response fields).1 = true
          · simp [hp]
          · simp only [hp, if_false, Bool.false_eq_true]
            refine ⟨pyOr_truthy _ _ (by simp [pyTruthy]), fun h => h.elim⟩
        | null => exact ⟨by simp [pyTruthy], fun h => h.elim⟩
        | bool b => exact ⟨by simp [pyTruthy], fun h => h.elim⟩
        | num n => exact ⟨by simp [pyTruthy], fun h => h.elim⟩
        | flt q => exact ⟨by simp [pyTruthy], fun h => h.elim⟩
        | str s => exact ⟨by simp [pyTruthy], fun h => h.elim⟩
        | arr xs => exact ⟨by simp [pyTruthy], fun h => h.elim⟩
    · rw [if_pos hs]
      exact ⟨non200Msg_truthy r, fun _ => rfl⟩

/-- Witness for C2 at a concrete connection error. -/
theorem C2_request_contract_witness : requestContract (TransportResult.reqError "boom") :=
  C2_request_contract _ (fun e he => by cases he; decide)

/-- Claim C3, counterexample: for the cookie-based AUDIENCES adapter with
the cookie file present and a zero/missing imdb id, `search_existing` still
issues the search request (with an empty `search=` term) and returns
whatever the result page holds - here a non-empty list - contradicting the
claim that every adapter short-circuits to an empty result with no network
call. -/
theorem C3_counterexample :
    (cookieSearchExisting "audiences.me" true 0 "" "5"
        (CookiePageOutcome.http 200 ["Some.Release.1080p.WEB-DL"])).2
      = [cookieSearchUrl "audiences.me" "" "5"]
    ∧ cookieSearchUrl "audiences.me" "" "5"
      = "https://audiences.me/torrents.php?search=&incldead=0&search_mode=0&source5=1"
    ∧ (cookieSearchExisting "audiences.me" true 0 "" "5"
        (CookiePageOutcome.http 200 ["Some.Release.1080p.WEB-DL"])).1
      = CookieSearchResult.dupes ["Some.Release.1080p.WEB-DL"] :=
  ⟨rfl, rfl, rfl⟩

/-- Claim C3 (amended): only MTEAM short-circuits - a missing, empty or
zero `imdb_id` makes `MTEAM.search_existing` return an empty list before
any request; the cookie-based adapters (AUDIENCES, CHD, HHAN, HDSKY, U2)
issue the search GET regardless, merely leaving the `search=` parameter
empty. -/
theorem C3_amended (v : Option Json)
    (hv : v = none ∨ v = some (Json.str "") ∨ v = some (Json.num 0))
    (oracle : Except MTEAMRequestError Json) (host sourceId : String)
    (page : CookiePageOutcome) :
    metaImdbId v = some 0
    ∧ mteamSearchExisting 0 oracle = ([], [])
    ∧ (cookieSearchExisting host true 0 "" sourceId page).2
        = [cookieSearchUrl host "" sourceId] := by
  refine ⟨?_, by simp [mteamSearchExisting], ?_⟩
  · rcases hv with h | h | h <;> subst h <;> rfl
  · cases page with
    | timeout => rfl
    | reqError e => rfl
    | http st titles =>
      unfold cookieSearchExisting
      split
      · simp_all
      · split
        · simp_all
        · split <;> rfl

/-- Witness for C3 at a missing `imdb_id`. -/
theorem C3_amended_witness :
    metaImdbId none = some 0
    ∧ mteamSearchExisting 0 (Except.ok (Json.arr [])) = ([], [])
    ∧ (cookieSearchExisting "audiences.me" true 0 "" "5"
        (CookiePageOutcome.http 200 [])).2
      = [cookieSearchUrl "audiences.me" "" "5"] :=
  C3_amended none (Or.inl rfl) (Except.ok (Json.arr [])) "audiences.me" "5"
    (CookiePageOutcome.http 200 [])

/-- Claim C4: a duplicate record built by `MTEAM.search_existing` from a
remote row lacking both the `standard` (resolution) and `source` fields has
its `res` and `type` fields populated by inference from the release name,
so they are non-empty whenever the name supports an inference (every other
field of the record is structurally present by construction of
`DupeEntry`). -/
theorem C4_inferred_fields (fields : List (String × Json)) (e : DupeEntry)
    (hstd : pyGet fields "standard" = Json.null)
    (hsrc : pyGet fields "source" = Json.null)
    (hbuild : buildDupeEntry (Json.obj fields) = some e) :
    e.res = inferResFromName e.name
    ∧ e.type = inferTypeFromName e.name
    ∧ (inferResFromName e.name ≠ "" → e.res ≠ "")
    ∧ (inferTypeFromName e.name ≠ "" → e.type ≠ "") := by
  by_cases hname :
      pyTruthy (pyOr (pyGet fields "name") (pyGetD fields "title" (Json.str ""))) = true
  · simp only [buildDupeEntry, hname, hstd, hsrc, jsonIsNull, Bool.not_true,
      Bool.false_eq_true, if_false, if_true, ite_false, ite_true, Option.some.injEq] at hbuild
    subst hbuild
    exact ⟨rfl, rfl, fun h => h, fun h => h⟩
  · simp only [buildDupeEntry, hname, Bool.false_eq_true, if_false, ite_false] at hbuild
    exact absurd hbuild (by simp)

/-- Witness for C4 at a concrete row without `standard`/`source`. -/
theorem C4_inferred_fields_witness :
    buildDupeEntry (Json.obj c4fields) = some c4entry
    ∧ c4entry.res = inferResFromName c4entry.name
    ∧ c4entry.type = inferTypeFromName c4entry.name :=
  ⟨rfl, (C4_inferred_fields c4fields c4entry rfl rfl rfl).1,
    (C4_inferred_fields c4fields c4entry rfl rfl rfl).2.1⟩

/-- Claim C5: an audio track whose codec text carries both the specific
"E-AC3"+"ATMOS" markers and the generic "E-AC3" marker maps to the E-AC3
Atmos id 13, not the plain E-AC3 id 12, both in the structured
`MTEAM.get_audio_codec_id` cascade and in the raw-text fallback parser
`_parse_codec_ids_from_mediainfo_text`. -/
theorem C5_atmos_priority (tracks : List (List (String × Json)))
    (t : List (String × Json)) (rest : List (List (String × Json)))
    (hfilter : tracks.filter (fun tr => pyEqStr (pyGet tr "@type") "Audio") = t :: rest)
    (hcodec : strIn "E-AC3" (trackField t "Format") = true)
    (hatmos : strIn "ATMOS" (trackField t "Format_Profile") = true
      ∨ strIn "ATMOS" (trackField t "Format") = true)
    (text : String) (htext : text ≠ "")
    (ht1 : strIn "E-AC3" (pyUpper text) = true)
    (ht2 : strIn "ATMOS" (pyUpper text) = true) :
    get_audio_codec_id tracks = some (some 13)
    ∧ (parse_codec_ids_from_mediainfo_text text).2 = some 13 := by
  constructor
  · unfold get_audio_codec_id
    rw [hfilter]
    unfold audioCodecIdOfTrack
    rcases hatmos with h | h <;> simp [hcodec, h]
  · unfold parse_codec_ids_from_mediainfo_text
    rw [if_neg htext]
    unfold parseAudioIdFromText
    simp [ht1, ht2]

/-- Witness for C5 at a concrete E-AC3 Atmos track and raw text. -/
theorem C5_atmos_priority_witness :
    get_audio_codec_id [c5track] = some (some 13)
    ∧ (parse_codec_ids_from_mediainfo_text "Audio: E-AC3 Atmos 768 kbps").2 = some 13 :=
  C5_atmos_priority [c5track] c5track [] rfl (by decide) (Or.inl (by decide))
    "Audio: E-AC3 Atmos 768 kbps" (by decide) (by decide) (by decide)

/-- Claim C6: the resolution mappings return the documented fixed ids -
MTEAM `get_standard_id`: 7 for 8K markers, 6 for 4K/2160p/2160i, 1 for
1080p, 2 for 1080i, 3 for 720p/720i, 5 for 480/576 content, `none`
otherwise; AUDIENCES `get_standard_sel`: "10", "5", "1", "2", "3", "4"
correspondingly and "11" for unmatched input - with the cascade's priority
order made explicit in the hypotheses. -/
theorem C6_resolution_table (s : String) :
    ((strIn "8k" (pyLower s) || strIn "7680" (pyLower s)) = true →
      get_standard_id s = some 7 ∧ get_standard_sel s = "10")
    ∧ ((strIn "8k" (pyLower s) || strIn "7680" (pyLower s)) = false →
       (strIn "4k" (pyLower s) || strIn "2160p" (pyLower s) || strIn "2160i" (pyLower s)) = true →
      get_standard_id s = some 6 ∧ get_standard_sel s = "5")
    ∧ ((strIn "8k" (pyLower s) || strIn "7680" (pyLower s)) = false →
       (strIn "4k" (pyLower s) || strIn "2160p" (pyLower s) || strIn "2160i" (pyLower s)) = false →
       strIn "1080p" (pyLower s) = true →
      get_standard_id s = some 1 ∧ get_standard_sel s = "1")
    ∧ ((strIn "8k" (pyLower s) || strIn "7680" (pyLower s)) = false →
       (strIn "4k" (pyLower s) || strIn "2160p" (pyLower s) || strIn "2160i" (pyLower s)) = false →
       strIn "1080p" (pyLower s) = false →
       strIn "1080i" (pyLower s) = true →
      get_standard_id s = some 2 ∧ get_standard_sel s = "2")
    ∧ ((strIn "8k" (pyLower s) || strIn "7680" (pyLower s)) = false →
       (strIn "4k" (pyLower s) || strIn "2160p" (pyLower s) || strIn "2160i" (pyLower s)) = false →
       strIn "1080p" (pyLower s) = false →
       strIn "1080i" (pyLower s) = false →
       (strIn "720p" (pyLower s) || strIn "720i" (pyLower s)) = true →
      get_standard_id s = some 3 ∧ get_standard_sel s = "3")
    ∧ ((strIn "8k" (pyLower s) || strIn "7680" (pyLower s)) = false →
       (strIn "4k" (pyLower s) || strIn "2160p" (pyLower s) || strIn "2160i" (pyLower s)) = false →
       strIn "1080p" (pyLower s) = false →
       strIn "1080i" (pyLower s) = false →
       (strIn "720p" (pyLower s) || strIn "720i" (pyLower s)) = false →
       (strIn "480p" (pyLower s) || strIn "480i" (pyLower s) || strIn "576p" (pyLower s)
         || strIn "576i" (pyLower s)) = true →
      get_standard_id s = some 5 ∧ get_standard_sel s = "4")
    ∧ ((strIn "8k" (pyLower s) || strIn "7680" (pyLower s)) = false →
       (strIn "4k" (pyLower s) || strIn "2160p" (pyLower s) || strIn "2160i" (pyLower s)) = false →
       strIn "1080p" (pyLower s) = false →
       strIn "1080i" (pyLower s) = false →
       (strIn "720p" (pyLower s) || strIn "720i" (pyLower s)) = false →
       (strIn "480p" (pyLower s) || strIn "480i" (pyLower s) || strIn "576p" (pyLower s)
         || strIn "576i" (pyLower s)) = false →
      get_standard_id s = none ∧ get_standard_sel s = "11") := by
  unfold get_standard_id get_standard_sel
  refine ⟨fun h1 => by simp [h1], fun h1 h2 => by simp [h1, h2],
    fun h1 h2 h3 => by simp [h1, h2, h3],
    fun h1 h2 h3 h4 => by simp [h1, h2, h3, h4],
    fun h1 h2 h3 h4 h5 => by simp [h1, h2, h3, h4, h5],
    fun h1 h2 h3 h4 h5 h6 => by simp [h1, h2, h3, h4, h5, h6],
    fun h1 h2 h3 h4 h5 h6 => by simp [h1, h2, h3, h4, h5, h6]⟩

/-- Witness for C6 at "2160p", "1080i" and an unmatched input. -/
theorem C6_resolution_table_witness :
    (get_standard_id "2160p" = some 6 ∧ get_standard_sel "2160p" = "5")
    ∧ (get_standard_id "1080i" = some 2 ∧ get_standard_sel "1080i" = "2")
    ∧ (get_standard_id "MP4" = none ∧ get_standard_sel "MP4" = "11") :=
  ⟨(C6_resolution_table "2160p").2.1 (by decide) (by decide),
   (C6_resolution_table "1080i").2.2.2.1 (by decide) (by decide) (by decide) (by decide),
   (C6_resolution_table "MP4").2.2.2.2.2.2 (by decide) (by decide) (by decide) (by decide)
     (by decide) (by decide)⟩

/-- Claim C7: when the configuration precondition is unmet - empty API key
for MTEAM, missing cookie file for the cookie-based adapters - credential
validation returns `false` and the list of issued requests is empty, for
every possible network oracle. -/
theorem C7_precondition_aborts (profileOutcome : Except MTEAMRequestError Json)
    (pageA pageC : String) :
    mteamValidateCredentials "" profileOutcome = (false, [])
    ∧ audiencesValidateCookies false pageA = (false, [])
    ∧ chdValidateCookies false pageC = (false, []) :=
  ⟨rfl, rfl, rfl⟩

/-- Claim C8, counterexample: the response URL consisting of exactly the
details-page shape (no digits after `id=`) starts with the shape, yet
`AUDIENCES.upload` raises an UploadException instead of succeeding, so
"succeeds exactly when the URL starts with the shape" fails in the
forward direction. -/
theorem C8_counterexample :
    pyStartsWith "https://audiences.me/details.php?id=" audiencesDetailsShape = true
    ∧ audiencesHandleUploadResponse "https://audiences.me/details.php?id=" 200
      = AudUploadOutcome.uploadException
          "Upload succeeded but torrent id was not present in the redirect URL." :=
  ⟨by decide, rfl⟩

/-- Claim C8 (amended): an AUDIENCES upload submission succeeds (returns
the torrent id extracted by `re.search(r"(id=)(\d+)")` from the query and
records the status message) exactly when the response URL starts with the
details-page shape AND its query contains `id=` followed by digits; a URL
not matching the shape raises a single generic UploadException carrying the
response URL and HTTP status, and a shape-matching URL without a numeric id
raises an UploadException with a dedicated message.  In both failure cases
the outcome carries no torrent-id/status mutation. -/
theorem C8_amended (url : String) (status : Nat) :
    (pyStartsWith url audiencesDetailsShape = false →
      audiencesHandleUploadResponse url status
        = AudUploadOutcome.uploadException
            ("Upload to AUDIENCES Failed: result URL " ++ url ++ " (" ++ toString status
              ++ ") was not expected"))
    ∧ (∀ tid msg, audiencesHandleUploadResponse url status = AudUploadOutcome.success tid msg →
        pyStartsWith url audiencesDetailsShape = true
        ∧ searchIdNum (pyUrlQuery url).data = some tid
        ∧ msg = pyReplace url "&uploaded=1" "")
    ∧ (pyStartsWith url audiencesDetailsShape = true →
       searchIdNum (pyUrlQuery url).data = none →
        audiencesHandleUploadResponse url status
          = AudUploadOutcome.uploadException
              "Upload succeeded but torrent id was not present in the redirect URL.")
    ∧ (∀ tid, pyStartsWith url audiencesDetailsShape = true →
       searchIdNum (pyUrlQuery url).data = some tid →
        audiencesHandleUploadResponse url status
          = AudUploadOutcome.success tid (pyReplace url "&uploaded=1" "")) := by
  refine ⟨fun h1 => ?_, fun tid msg h => ?_, fun h1 h2 => ?_, fun tid h1 h2 => ?_⟩
  · unfold audiencesHandleUploadResponse
    simp [h1]
  · unfold audiencesHandleUploadResponse at h
    by_cases h1 : pyStartsWith url audiencesDetailsShape = true
    · rw [if_pos h1] at h
      cases hs : searchIdNum (pyUrlQuery url).data with
      | none => rw [hs] at h; exact absurd h (by simp)
      | some d =>
        rw [hs] at h
        injection h with hd hm
        exact ⟨h1, congrArg some hd, hm.symm⟩
    · rw [if_neg h1] at h
      exact absurd h (by simp)
  · unfold audiencesHandleUploadResponse
    rw [if_pos h1, h2]
  · unfold audiencesHandleUploadResponse
    rw [if_pos h1, h2]

/-- Witness for C8 at a concrete redirect URL and at a concrete
non-matching URL. -/
theorem C8_amended_witness :
    audiencesHandleUploadResponse "https://audiences.me/details.php?id=12345&uploaded=1" 200
      = AudUploadOutcome.success "12345"
          (pyReplace "https://audiences.me/details.php?id=12345&uploaded=1" "&uploaded=1" "")
    ∧ audiencesHandleUploadResponse "https://audiences.me/index.php" 302
      = AudUploadOutcome.uploadException
          ("Upload to AUDIENCES Failed: result URL " ++ "https://audiences.me/index.php"
            ++ " (" ++ toString 302 ++ ") was not expected") :=
  ⟨(C8_amended "https://audiences.me/details.php?id=12345&uploaded=1" 200).2.2.2 "12345"
      (by decide) rfl,
   (C8_amended "https://audiences.me/index.php" 302).1 (by decide)⟩

/-- Claim C9: when the per-tracker description cache file already exists,
`upload` (MTEAM and AUDIENCES) does not invoke `edit_desc`: the file-system
state is returned unchanged and no description write appears among the
side effects, so the cache file is never overwritten by `upload`. -/
theorem C9_desc_cache_reused (fs : FsState) (h : fs.descExists = true)
    (gen gen2 : String) (dbg pc : Bool) (imdbId : Int)
    (sub : Except MTEAMRequestError Json)
    (dbg2 cook : Bool) (respUrl : String) (respStatus : Nat) :
    ensureDescFile fs gen = (fs, false)
    ∧ (mteamUpload dbg fs gen pc imdbId sub).2.1 = fs
    ∧ UploadEffect.writeDescFile ∉ (mteamUpload dbg fs gen pc imdbId sub).2.2
    ∧ (audiencesUpload dbg2 cook fs gen2 imdbId respUrl respStatus).2.1 = fs
    ∧ UploadEffect.writeDescFile ∉
        (audiencesUpload dbg2 cook fs gen2 imdbId respUrl respStatus).2.2 := by
  have hstep : ensureDescFile fs gen = (fs, false) := by
    unfold ensureDescFile; rw [if_pos h]
  have hstep2 : ensureDescFile fs gen2 = (fs, false) := by
    unfold ensureDescFile; rw [if_pos h]
  refine ⟨hstep, ?_, ?_, ?_, ?_⟩
  · unfold mteamUpload
    rw [hstep]
    cases dbg
    · cases sub <;> simp
    · simp
  · unfold mteamUpload
    rw [hstep]
    cases dbg
    · cases sub with
      | error e => simp
      | ok dataObj =>
        simp
        cases dataObj <;> simp
    · simp
  · unfold audiencesUpload
    rw [hstep2]
    cases dbg2
    · cases cook
      · simp
      · simp
        split <;> simp
    · simp
  · unfold audiencesUpload
    rw [hstep2]
    cases dbg2
    · cases cook
      · simp
      · simp
        split <;> simp
    · simp

/-- Witness for C9 at a concrete pre-existing description file. -/
theorem C9_desc_cache_reused_witness :
    ensureDescFile ⟨true, "cached description"⟩ "new description" = (⟨true, "cached description"⟩, false)
    ∧ (mteamUpload false ⟨true, "cached description"⟩ "new description" true 5
        (Except.error ⟨Json.str "err", 0⟩)).2.1 = ⟨true, "cached description"⟩
    ∧ UploadEffect.writeDescFile ∉ (mteamUpload false ⟨true, "cached description"⟩
        "new description" true 5 (Except.error ⟨Json.str "err", 0⟩)).2.2 := by
  have h := C9_desc_cache_reused ⟨true, "cached description"⟩ rfl "new description" "d2"
    false true 5 (Except.error ⟨Json.str "err", 0⟩) false true "u" 200
  exact ⟨h.1, h.2.1, h.2.2.1⟩

/-- Claim C10, counterexample: a debug-mode MTEAM upload with a non-zero
imdb id and no cached PTGen data performs a PTGen metadata fetch - an
outbound network request that is neither a local file creation nor the
status-record mutation - so "the only side effects are local file creation
and the status-record mutation" fails (the claim's other parts hold: the
call returns true, sets the debug status message and issues no tracker
submission). -/
theorem C10_counterexample :
    mteamUpload true ⟨true, "cached"⟩ "gen" false 1 (Except.ok Json.null)
      = (true, ⟨true, "cached"⟩,
         [UploadEffect.createTorrent, UploadEffect.ptgenFetch,
          UploadEffect.statusMessageSet "Debug mode enabled, not uploading."]) := rfl

/-- Claim C10 (amended): with the debug flag set, both uploads return a
successful result, set the status message to the debug notice and issue no
tracker submission at all; every side effect is a local file creation
(torrent or description), a PTGen metadata fetch, or that status-record
mutation. -/
theorem C10_debug_no_submit (fs : FsState) (gen gen2 : String) (pc : Bool) (imdbId : Int)
    (sub : Except MTEAMRequestError Json) (cook : Bool) (respUrl : String) (respStatus : Nat) :
    (mteamUpload true fs gen pc imdbId sub).1 = true
    ∧ UploadEffect.statusMessageSet "Debug mode enabled, not uploading."
        ∈ (mteamUpload true fs gen pc imdbId sub).2.2
    ∧ (∀ u, UploadEffect.trackerSubmit u ∉ (mteamUpload true fs gen pc imdbId sub).2.2)
    ∧ (∀ e ∈ (mteamUpload true fs gen pc imdbId sub).2.2,
        e = UploadEffect.createTorrent ∨ e = UploadEffect.writeDescFile
        ∨ e = UploadEffect.ptgenFetch
        ∨ e = UploadEffect.statusMessageSet "Debug mode enabled, not uploading.")
    ∧ (audiencesUpload true cook fs gen2 imdbId respUrl respStatus).1 = Except.ok true
    ∧ UploadEffect.statusMessageSet "Debug mode enabled, not uploading."
        ∈ (audiencesUpload true cook fs gen2 imdbId respUrl respStatus).2.2
    ∧ (∀ u, UploadEffect.trackerSubmit u ∉
        (audiencesUpload true cook fs gen2 imdbId respUrl respStatus).2.2)
    ∧ (∀ e ∈ (audiencesUpload true cook fs gen2 imdbId respUrl respStatus).2.2,
        e = UploadEffect.createTorrent ∨ e = UploadEffect.writeDescFile
        ∨ e = UploadEffect.ptgenFetch
        ∨ e = UploadEffect.statusMessageSet "Debug mode enabled, not uploading.") := by
  unfold mteamUpload audiencesUpload ensureDescFile
  by_cases hd : fs.descExists = true
  · rw [if_pos hd, if_pos hd]
    refine ⟨rfl, by simp, ?_, ?_, rfl, by simp, ?_, ?_⟩
    · intro u
      repeat' split
      all_goals (try simp_all)
    · intro e he
      revert he
      repeat' split
      all_goals (try simp_all)
      all_goals tauto
    · intro u
      repeat' split
      all_goals (try simp_all)
    · intro e he
      revert he
      repeat' split
      all_goals (try simp_all)
      all_goals tauto
  · rw [if_neg hd, if_neg hd]
    refine ⟨rfl, by simp, ?_, ?_, rfl, by simp, ?_, ?_⟩
    · intro u
      repeat' split
      all_goals (try simp_all)
    · intro e he
      revert he
      repeat' split
      all_goals (try simp_all)
      all_goals tauto
    · intro u
      repeat' split
      all_goals (try simp_all)
    · intro e he
      revert he
      repeat' split
      all_goals (try simp_all)
      all_goals tauto

/-- Witness for C10 at concrete debug-mode inputs. -/
theorem C10_debug_no_submit_witness :
    (mteamUpload true ⟨false, ""⟩ "g" true 0 (Except.error ⟨Json.str "e", 0⟩)).1 = true
    ∧ (audiencesUpload true false ⟨false, ""⟩ "g2" 0 "u" 200).1 = Except.ok true :=
  ⟨(C10_debug_no_submit ⟨false, ""⟩ "g" "g2" true 0 (Except.error ⟨Json.str "e", 0⟩)
      false "u" 200).1,
   (C10_debug_no_submit ⟨false, ""⟩ "g" "g2" true 0 (Except.error ⟨Json.str "e", 0⟩)
      false "u" 200).2.2.2.2.1⟩
